import Mathlib

/-!
Shallow embedding of the `rocket_oauth2` HyperRustlsAdapter
(`src/hyper_rustls_adapter.rs`) and, where the crate root is not among the
provided sources, models of the flow-engine pieces taken from the spec.

External collaborators (the `url` crate's parser, rocket's `Absolute::parse`,
the HTTP transport, `serde_json`'s parser) are passed in as explicit function
or outcome parameters; their *documented* serialization behaviour
(`form_urlencoded` percent-encoding, query-pair appending) is embedded
directly because the adapter's output is defined in terms of it.
-/

namespace RocketOAuth2

/-- Provider endpoints, as read through `config.provider().auth_uri()` and
`config.provider().token_uri()` in the adapter. -/
structure ProviderConfig where
  auth_uri : String
  token_uri : String
  deriving Repr, DecidableEq

/-- Application configuration, as read through `config.client_id()`,
`config.client_secret()`, `config.redirect_uri()` and `config.provider()`
in the adapter. -/
structure OAuthConfig where
  client_id : String
  client_secret : String
  redirect_uri : Option String
  provider : ProviderConfig
  deriving Repr, DecidableEq

/-- The error kinds the adapter produces (`ErrorKind` in the crate root);
the flow-engine kinds (`StateMismatch`, `MissingCode`, `ProviderDenied`)
follow the spec's error taxonomy (§7). -/
inductive ErrorKind where
  | InvalidUri (uri : String)
  | ExchangeError (status : Nat)
  | ExchangeFailure
  | StateMismatch
  | MissingCode
  | ProviderDenied
  deriving Repr, DecidableEq

/-- `TokenRequest` tagged union from the crate. -/
inductive TokenRequest where
  | AuthorizationCode (code : String)
  | RefreshToken (token : String)
  deriving Repr, DecidableEq

/-! ### `application/x-www-form-urlencoded` serialization

`url::form_urlencoded::Serializer` (used both by `query_pairs_mut` and by the
token-request body builder) keeps ASCII alphanumerics and `*-._` verbatim,
turns a space into `+`, and percent-encodes every other UTF-8 byte with
uppercase hex digits. Pairs are written `k=v` and joined by `&`; appending to
a non-empty existing string first writes a `&` separator. -/

/-- Uppercase hexadecimal digit for `n < 16`. -/
def hexDigitChar (n : Nat) : Char :=
  if n < 10 then Char.ofNat (48 + n) else Char.ofNat (55 + n)

/-- `%XX` escape of one byte. -/
def percentEncodeByte (b : Nat) : String :=
  String.mk ['%', hexDigitChar (b / 16), hexDigitChar (b % 16)]

/-- Bytes left verbatim by the form-urlencoded byte serializer. -/
def isFormSafeByte (b : Nat) : Bool :=
  (48 ≤ b && b ≤ 57) || (65 ≤ b && b ≤ 90) || (97 ≤ b && b ≤ 122) ||
    b == 42 || b == 45 || b == 46 || b == 95

/-- Encoding of a single byte: space becomes `+`, safe bytes stay, the rest
is percent-escaped. -/
def formEncodeByte (b : Nat) : String :=
  if b == 32 then "+"
  else if isFormSafeByte b then String.singleton (Char.ofNat b)
  else percentEncodeByte b

/-- UTF-8 bytes of one code point. -/
def utf8BytesOfCode (n : Nat) : List Nat :=
  if n < 128 then [n]
  else if n < 2048 then [192 + n / 64, 128 + n % 64]
  else if n < 65536 then [224 + n / 4096, 128 + n / 64 % 64, 128 + n % 64]
  else [240 + n / 262144, 128 + n / 4096 % 64, 128 + n / 64 % 64, 128 + n % 64]

/-- UTF-8 bytes of a string. -/
def stringBytes (s : String) : List Nat :=
  s.data.foldr (fun c acc => utf8BytesOfCode c.toNat ++ acc) []

/-- Form-urlencoded encoding of a string. -/
def formEncode (s : String) : String :=
  (stringBytes s).foldl (fun acc b => acc ++ formEncodeByte b) ""

/-- One serialized `key=value` pair. -/
def pairStr (p : String × String) : String :=
  formEncode p.1 ++ "=" ++ formEncode p.2

/-- `Serializer::append_pair` on an existing serialized string: a `&`
separator is written first unless the string is still empty. -/
def appendToQuery (q : String) (p : String × String) : String :=
  if q = "" then pairStr p else q ++ "&" ++ pairStr p

/-- Appending a whole list of pairs to an existing serialized string. -/
def serializeInto (q : String) (ps : List (String × String)) : String :=
  ps.foldl appendToQuery q

/-- `Serializer::new(String::new())` followed by `append_pair` for each pair
and `finish()`. -/
def serializePairs (ps : List (String × String)) : String :=
  serializeInto "" ps

/-! ### The `url::Url` value after parsing

A parsed URL is kept abstract except for the parts `query_pairs_mut` touches:
its serialization splits as `nonQuery ++ "?" ++ query ++ "#" ++ fragment`
(question mark and hash only when the respective component is present). -/

structure Url where
  nonQuery : String
  query : Option String
  fragment : Option String
  deriving Repr, DecidableEq

/-- `url.query_pairs_mut().append_pair(k, v)`: appends to the existing raw
query (with a `&` separator if it was non-empty) and leaves every other
component unchanged. -/
def Url.appendPair (u : Url) (k v : String) : Url :=
  ⟨u.nonQuery, some (appendToQuery (u.query.getD "") (k, v)), u.fragment⟩

/-- Folding `append_pair` over a list of pairs. -/
def appendPairs (u : Url) (ps : List (String × String)) : Url :=
  ps.foldl (fun v p => v.appendPair p.1 p.2) u

/-- `url.as_ref()` / `url.to_string()`: the URL's serialization. -/
def urlToString (u : Url) : String :=
  u.nonQuery
    ++ (match u.query with
        | none => ""
        | some q => "?" ++ q)
    ++ (match u.fragment with
        | none => ""
        | some f => "#" ++ f)

/-! ### `HyperRustlsAdapter::authorization_uri`

`urlParse` stands for `Url::parse` (the `url` crate) and `absParse` for
`rocket::http::uri::Absolute::parse` succeeding on the assembled string;
both are deterministic external parsers passed in as parameters. -/

def authorization_uri (urlParse : String → Option Url) (absParse : String → Bool)
    (config : OAuthConfig) (state : String) (scopes : List String) :
    Except ErrorKind String :=
  match urlParse config.provider.auth_uri with
  | none => .error (.InvalidUri config.provider.auth_uri)
  | some url =>
    let url := ((url.appendPair "response_type" "code").appendPair
        "client_id" config.client_id).appendPair "state" state
    let url := match config.redirect_uri with
      | some redirect_uri => url.appendPair "redirect_uri" redirect_uri
      | none => url
    let url := if scopes.isEmpty then url
      else url.appendPair "scope" (String.intercalate " " scopes)
    if absParse (urlToString url) then .ok (urlToString url)
    else .error (.InvalidUri (urlToString url))

/-- The query parameters `authorization_uri` appends, in order. -/
def authParams (config : OAuthConfig) (state : String) (scopes : List String) :
    List (String × String) :=
  [("response_type", "code"), ("client_id", config.client_id), ("state", state)]
    ++ (match config.redirect_uri with
        | some r => [("redirect_uri", r)]
        | none => [])
    ++ (if scopes.isEmpty then []
        else [("scope", String.intercalate " " scopes)])

/-! ### `HyperRustlsAdapter::exchange_code`

The pure parts of `exchange_code` — the form body, the outgoing request —
are embedded directly; the network round trip and `serde_json::from_slice`
are external and enter as an `HttpOutcome` produced by a transport function. -/

/-- JSON values (`serde_json::Value`). -/
inductive Json where
  | null
  | bool (b : Bool)
  | num (n : Int)
  | str (s : String)
  | arr (xs : List Json)
  | obj (fields : List (String × Json))

/-- Field lookup in a JSON object, keyed by name. -/
def jsonLookup (fields : List (String × Json)) (k : String) : Option Json :=
  match fields.find? (fun f => f.1 == k) with
  | some f => some f.2
  | none => none

/-- A JSON value viewed as a string, when it is one. -/
def asStr : Option Json → Option String
  | some (.str s) => some s
  | _ => none

/-- A JSON value viewed as an integer, when it is one. -/
def asInt : Option Json → Option Int
  | some (.num n) => some n
  | _ => none

/-- Normalized result of a successful exchange (`TokenResponse` in the crate
root; field list per the spec's data model, §3). -/
structure TokenResponse where
  access_token : String
  token_type : String
  refresh_token : Option String
  expires_in : Option Int
  raw : Json

/-- Modelled from the spec: the crate root's `TryFrom<serde_json::Value> for
TokenResponse` is not among the provided sources. Per §3 and §4.4 the parsed
body must be a JSON object carrying the string fields `access_token` and
`token_type`; `refresh_token` and `expires_in` are optional; any body that
"does not contain the required `access_token` field" is an
`ExchangeFailure`. -/
def tokenResponseTryFrom (j : Json) : Except ErrorKind TokenResponse :=
  match j with
  | .obj fields =>
    match asStr (jsonLookup fields "access_token"),
        asStr (jsonLookup fields "token_type") with
    | some a, some t =>
      .ok ⟨a, t, asStr (jsonLookup fields "refresh_token"),
        asInt (jsonLookup fields "expires_in"), j⟩
    | _, _ => .error .ExchangeFailure
  | _ => .error .ExchangeFailure

/-- The form pairs serialized into the token-request body, in order. -/
def tokenRequestParams (config : OAuthConfig) (token : TokenRequest) :
    List (String × String) :=
  (match token with
    | .AuthorizationCode code =>
      [("grant_type", "authorization_code"), ("code", code)]
        ++ (match config.redirect_uri with
            | some redirect_uri => [("redirect_uri", redirect_uri)]
            | none => [])
    | .RefreshToken token =>
      [("grant_type", "refresh_token"), ("refresh_token", token)])
    ++ [("client_id", config.client_id), ("client_secret", config.client_secret)]

/-- The `req_str` block of `exchange_code`: a fresh serializer, the
grant-specific pairs, then `client_id` and `client_secret`, then `finish()`. -/
def tokenRequestBody (config : OAuthConfig) (token : TokenRequest) : String :=
  serializePairs (tokenRequestParams config token)

/-- An outgoing HTTP request (method, target, headers, body). -/
structure HttpRequest where
  method : String
  uri : String
  headers : List (String × String)
  body : String
  deriving Repr, DecidableEq

/-- The request `exchange_code` builds: `Request::post(token_uri)` with the
`ACCEPT` and `CONTENT_TYPE` headers and the serialized form body. -/
def exchangeRequest (config : OAuthConfig) (token : TokenRequest) : HttpRequest :=
  ⟨"POST", config.provider.token_uri,
    [("accept", "application/json"),
      ("content-type", "application/x-www-form-urlencoded")],
    tokenRequestBody config token⟩

/-- What reading the response body yields: `hyper::body::to_bytes` may fail,
and on success `serde_json::from_slice` either parses a value or does not. -/
inductive BodyOutcome where
  | readFailure
  | bytes (parsed : Option Json)

/-- Result of the network round trip: a transport-level failure, or a
response with a status code and a body. -/
inductive HttpOutcome where
  | transportFailure
  | response (status : Nat) (body : BodyOutcome)

/-- `http::StatusCode::is_success`: `2xx`. -/
def is_success (status : Nat) : Bool :=
  Nat.ble 200 status && Nat.blt status 300

/-- The response-handling tail of `exchange_code`, line by line: a transport
error is an `ExchangeFailure`; a non-2xx status is an `ExchangeError`
carrying the status (returned before the body is ever read); then a body
read failure or an unparsable body is an `ExchangeFailure`; a parsed value
goes through the `TokenResponse` conversion. -/
def processExchangeResponse (outcome : HttpOutcome) :
    Except ErrorKind TokenResponse :=
  match outcome with
  | .transportFailure => .error .ExchangeFailure
  | .response status body =>
    if is_success status = false then .error (.ExchangeError status)
    else
      match body with
      | .readFailure => .error .ExchangeFailure
      | .bytes none => .error .ExchangeFailure
      | .bytes (some j) => tokenResponseTryFrom j

/-- `exchange_code`, with the network round trip abstracted as a function
from the outgoing request to its outcome. -/
def exchange_code (config : OAuthConfig) (token : TokenRequest)
    (transport : HttpRequest → HttpOutcome) : Except ErrorKind TokenResponse :=
  processExchangeResponse (transport (exchangeRequest config token))

/-! ### The adapter value itself -/

/-- `pub struct HyperRustlsAdapter;` — a unit struct with no fields and
hence no mutable state. -/
structure HyperRustlsAdapter where
  deriving Repr, DecidableEq

/-- One `authorization_uri` call through a `&self` receiver: the adapter
value and the configuration come back unchanged next to the result. -/
def authorizationUriCall (a : HyperRustlsAdapter)
    (urlParse : String → Option Url) (absParse : String → Bool)
    (config : OAuthConfig) (state : String) (scopes : List String) :
    HyperRustlsAdapter × OAuthConfig × Except ErrorKind String :=
  (a, config, authorization_uri urlParse absParse config state scopes)

/-! ### Flow engine pieces modelled from the spec

The crate root (flow engine, CSRF handling) is not among the provided
sources; these definitions follow the spec's words. -/

/-- Modelled from the spec: callback validation in the flow engine (crate
root, not among the provided sources). §6 requires a
`load_and_clear() -> Option<CsrfState>` session operation, §4.2 an exact
comparison, §7 that the pending state is discarded even on failure: the
pending slot is always cleared, and the attempt succeeds exactly when the
received string equals the stored state. -/
def validateCallbackState (pending : Option String) (received : String) :
    Option String × Except ErrorKind Unit :=
  (none,
    if pending = some received then .ok () else .error .StateMismatch)

/-- Query parameters a provider callback may carry (§6). -/
structure CallbackParams where
  code : Option String
  state : Option String
  error : Option String
  deriving Repr, DecidableEq

/-- Modelled from the spec: the flow engine's callback handler (crate root,
not among the provided sources). Per §4.5, a callback carrying an `error`
parameter fails with `ProviderDenied` before any exchange; otherwise the
stored state is loaded-and-cleared and compared exactly (`StateMismatch` on
absence or mismatch), a missing `code` is `MissingCode`, and only then is the
adapter's exchange invoked. Returns the new pending-state slot next to the
outcome. -/
def handleCallback (exchange : String → Except ErrorKind TokenResponse)
    (pending : Option String) (p : CallbackParams) :
    Option String × Except ErrorKind TokenResponse :=
  match p.error with
  | some _ => (none, .error .ProviderDenied)
  | none =>
    match p.state with
    | none => (none, .error .StateMismatch)
    | some received =>
      if pending = some received then
        match p.code with
        | none => (none, .error .MissingCode)
        | some code => (none, exchange code)
      else (none, .error .StateMismatch)

/-! ### Helper lemmas about the query serialization -/

theorem append_mid_ne_empty (a m b : String) (hm : m.length = 1) :
    a ++ m ++ b ≠ "" := by
  intro h
  have hl : (a ++ m ++ b).length = 0 := by rw [h]; rfl
  rw [String.length_append, String.length_append, hm] at hl
  omega

theorem pairStr_ne_empty (p : String × String) : pairStr p ≠ "" :=
  append_mid_ne_empty (formEncode p.1) "=" (formEncode p.2) rfl

theorem appendToQuery_ne_empty (q : String) (p : String × String) :
    appendToQuery q p ≠ "" := by
  unfold appendToQuery
  split
  · exact pairStr_ne_empty p
  · exact append_mid_ne_empty q "&" (pairStr p) rfl

theorem serializeInto_cons (q : String) (p : String × String)
    (ps : List (String × String)) :
    serializeInto q (p :: ps) = serializeInto (appendToQuery q p) ps := rfl

/-- Appending pairs to a non-empty serialized string is the string, a `&`,
then the pairs serialized on their own. -/
theorem serializeInto_split :
    ∀ (ps : List (String × String)) (q : String), q ≠ "" → ps ≠ [] →
      serializeInto q ps = q ++ "&" ++ serializePairs ps := by
  intro ps
  induction ps with
  | nil => intro q _ h; exact absurd rfl h
  | cons p ps ih =>
    intro q hq _
    cases ps with
    | nil =>
      simp [serializeInto, serializePairs, appendToQuery, if_neg hq]
    | cons r rs =>
      have h1 : appendToQuery q p = q ++ "&" ++ pairStr p := if_neg hq
      have h2 : appendToQuery q p ≠ "" := appendToQuery_ne_empty q p
      have h3 : serializePairs (p :: r :: rs) =
          pairStr p ++ "&" ++ serializePairs (r :: rs) := by
        rw [serializePairs, serializeInto_cons]
        have h4 : appendToQuery "" p = pairStr p := if_pos rfl
        rw [h4, ih (pairStr p) (pairStr_ne_empty p) (by simp)]
      rw [serializeInto_cons, ih _ h2 (by simp), h1, h3]
      simp [String.append_assoc]

theorem appendPairs_cons (u : Url) (p : String × String)
    (ps : List (String × String)) :
    appendPairs u (p :: ps) = appendPairs (u.appendPair p.1 p.2) ps := rfl

theorem appendPairs_nonQuery :
    ∀ (ps : List (String × String)) (u : Url),
      (appendPairs u ps).nonQuery = u.nonQuery := by
  intro ps
  induction ps with
  | nil => intro u; rfl
  | cons p ps ih =>
    intro u
    rw [appendPairs_cons, ih]
    rfl

theorem appendPairs_fragment :
    ∀ (ps : List (String × String)) (u : Url),
      (appendPairs u ps).fragment = u.fragment := by
  intro ps
  induction ps with
  | nil => intro u; rfl
  | cons p ps ih =>
    intro u
    rw [appendPairs_cons, ih]
    rfl

theorem appendPairs_query_cons :
    ∀ (ps : List (String × String)) (u : Url) (p : String × String),
      (appendPairs u (p :: ps)).query =
        some (serializeInto (u.query.getD "") (p :: ps)) := by
  intro ps
  induction ps with
  | nil => intro u p; rfl
  | cons r rs ih =>
    intro u p
    rw [appendPairs_cons]
    exact ih (u.appendPair p.1 p.2) r

theorem appendPairs_query_ne (u : Url) (ps : List (String × String))
    (h : ps ≠ []) :
    (appendPairs u ps).query = some (serializeInto (u.query.getD "") ps) := by
  cases ps with
  | nil => exact absurd rfl h
  | cons p ps => exact appendPairs_query_cons ps u p

theorem authParams_ne_nil (config : OAuthConfig) (state : String)
    (scopes : List String) : authParams config state scopes ≠ [] := by
  simp [authParams]

/-- With a successful first parse, `authorization_uri` is the serialization
of the parsed URL with `authParams` appended, gated by the second parse. -/
theorem authorization_uri_some (urlParse : String → Option Url)
    (absParse : String → Bool) (config : OAuthConfig) (state : String)
    (scopes : List String) (u : Url)
    (hu : urlParse config.provider.auth_uri = some u) :
    authorization_uri urlParse absParse config state scopes =
      (if absParse (urlToString (appendPairs u (authParams config state scopes)))
       then .ok (urlToString (appendPairs u (authParams config state scopes)))
       else .error (.InvalidUri
         (urlToString (appendPairs u (authParams config state scopes))))) := by
  unfold authorization_uri
  rw [hu]
  cases hred : config.redirect_uri <;> cases scopes <;>
    simp [authParams, appendPairs, hred]

/-! ### Claim theorems -/

/-- Claim C1: for every `OAuthConfig`, state string and scope list (with both
external parses succeeding), `authorization_uri` returns the provider's
authorization endpoint (`nonQuery` unchanged) with the appended query pairs
serialized after any pre-existing query; the appended pairs contain
`response_type=code`, the config's `client_id` and the given state; they
contain a `redirect_uri` pair iff the config has one, and a `scope` pair —
the scopes joined by a single space, then form-encoded by the serializer —
iff the scope list is non-empty. -/
theorem authorization_uri_query_params (urlParse : String → Option Url)
    (absParse : String → Bool) (config : OAuthConfig) (state : String)
    (scopes : List String) (u : Url)
    (hu : urlParse config.provider.auth_uri = some u)
    (hap : absParse (urlToString (appendPairs u (authParams config state scopes)))
      = true) :
    authorization_uri urlParse absParse config state scopes =
        .ok (urlToString (appendPairs u (authParams config state scopes))) ∧
    (appendPairs u (authParams config state scopes)).nonQuery = u.nonQuery ∧
    (appendPairs u (authParams config state scopes)).query =
        some (serializeInto (u.query.getD "") (authParams config state scopes)) ∧
    ("response_type", "code") ∈ authParams config state scopes ∧
    ("client_id", config.client_id) ∈ authParams config state scopes ∧
    ("state", state) ∈ authParams config state scopes ∧
    ((∃ r, ("redirect_uri", r) ∈ authParams config state scopes) ↔
      config.redirect_uri ≠ none) ∧
    ((∃ v, ("scope", v) ∈ authParams config state scopes) ↔ scopes ≠ []) ∧
    (scopes ≠ [] →
      ("scope", String.intercalate " " scopes) ∈ authParams config state scopes) := by
  refine ⟨?_, appendPairs_nonQuery _ u, ?_, ?_, ?_, ?_, ?_, ?_, ?_⟩
  · rw [authorization_uri_some urlParse absParse config state scopes u hu, hap]
    rfl
  · exact appendPairs_query_ne u _ (authParams_ne_nil config state scopes)
  · simp [authParams]
  · simp [authParams]
  · simp [authParams]
  · cases hred : config.redirect_uri <;> cases scopes <;> simp [authParams, hred]
  · cases hred : config.redirect_uri <;> cases scopes <;> simp [authParams, hred]
  · intro hne
    cases hred : config.redirect_uri <;> cases scopes <;>
      simp [authParams, hred] at hne ⊢

/-- Witness for C1 at a concrete configuration, state and scope list. -/
theorem authorization_uri_query_params_witness :
    authorization_uri (fun _ => some ⟨"https://p.example/auth", none, none⟩)
        (fun _ => true)
        ⟨"cid", "sec", some "https://app.example/cb",
          ⟨"https://p.example/auth", "https://p.example/token"⟩⟩ "xyz" ["a", "b"] =
      .ok "https://p.example/auth?response_type=code&client_id=cid&state=xyz&redirect_uri=https%3A%2F%2Fapp.example%2Fcb&scope=a+b" ∧
    ("state", "xyz") ∈ authParams
      ⟨"cid", "sec", some "https://app.example/cb",
        ⟨"https://p.example/auth", "https://p.example/token"⟩⟩ "xyz" ["a", "b"] := by
  have h := authorization_uri_query_params
    (fun _ => some ⟨"https://p.example/auth", none, none⟩) (fun _ => true)
    ⟨"cid", "sec", some "https://app.example/cb",
      ⟨"https://p.example/auth", "https://p.example/token"⟩⟩ "xyz" ["a", "b"]
    ⟨"https://p.example/auth", none, none⟩ rfl rfl
  exact ⟨by rw [h.1]; rfl, h.2.2.2.2.2.1⟩

/-- Claim C9: when the parsed `auth_uri` already carries a (non-empty) query,
`authorization_uri` keeps it unchanged as a prefix and appends the new
parameters after it, separated by `&` — it never replaces the existing
query string. -/
theorem authorization_uri_preserves_query (urlParse : String → Option Url)
    (absParse : String → Bool) (config : OAuthConfig) (state : String)
    (scopes : List String) (u : Url) (q : String)
    (hu : urlParse config.provider.auth_uri = some u)
    (hq : u.query = some q) (hqne : q ≠ "")
    (hap : absParse (urlToString (appendPairs u (authParams config state scopes)))
      = true) :
    authorization_uri urlParse absParse config state scopes =
        .ok (urlToString (appendPairs u (authParams config state scopes))) ∧
    (appendPairs u (authParams config state scopes)).query =
        some (q ++ "&" ++ serializePairs (authParams config state scopes)) ∧
    (appendPairs u (authParams config state scopes)).nonQuery = u.nonQuery := by
  refine ⟨?_, ?_, appendPairs_nonQuery _ u⟩
  · rw [authorization_uri_some urlParse absParse config state scopes u hu, hap]
    rfl
  · rw [appendPairs_query_ne u _ (authParams_ne_nil config state scopes), hq]
    rw [Option.getD_some,
      serializeInto_split _ q hqne (authParams_ne_nil config state scopes)]

/-- Witness for C9: a pre-existing query `keep=1` survives unchanged with
the new parameters appended after it. -/
theorem authorization_uri_preserves_query_witness :
    authorization_uri (fun _ => some ⟨"https://p.example/auth", some "keep=1", none⟩)
        (fun _ => true) ⟨"cid", "sec", none, ⟨"https://p.example/auth", "t"⟩⟩
        "xyz" ["s1"] =
      .ok "https://p.example/auth?keep=1&response_type=code&client_id=cid&state=xyz&scope=s1" ∧
    (appendPairs ⟨"https://p.example/auth", some "keep=1", none⟩
        (authParams ⟨"cid", "sec", none, ⟨"https://p.example/auth", "t"⟩⟩
          "xyz" ["s1"])).query =
      some "keep=1&response_type=code&client_id=cid&state=xyz&scope=s1" := by
  have h := authorization_uri_preserves_query
    (fun _ => some ⟨"https://p.example/auth", some "keep=1", none⟩) (fun _ => true)
    ⟨"cid", "sec", none, ⟨"https://p.example/auth", "t"⟩⟩ "xyz" ["s1"]
    ⟨"https://p.example/auth", some "keep=1", none⟩ "keep=1" rfl rfl
    (by decide) rfl
  exact ⟨by rw [h.1]; rfl, by rw [h.2.1]; rfl⟩

/-- Claim C7: `authorization_uri` fails with `InvalidUri` (and returns no
URI value) whenever the provider's `auth_uri` does not parse, and whenever
the assembled string does not parse back into an absolute URI; the error
carries the offending string in each case. -/
theorem authorization_uri_invalid_uri (urlParse : String → Option Url)
    (absParse : String → Bool) (config : OAuthConfig) (state : String)
    (scopes : List String) :
    (urlParse config.provider.auth_uri = none →
      authorization_uri urlParse absParse config state scopes =
        .error (.InvalidUri config.provider.auth_uri)) ∧
    (∀ u, urlParse config.provider.auth_uri = some u →
      absParse (urlToString (appendPairs u (authParams config state scopes)))
        = false →
      authorization_uri urlParse absParse config state scopes =
        .error (.InvalidUri
          (urlToString (appendPairs u (authParams config state scopes))))) := by
  constructor
  · intro h
    unfold authorization_uri
    rw [h]
  · intro u hu hap
    rw [authorization_uri_some urlParse absParse config state scopes u hu, hap]
    rfl

/-- Witness for C7: a failing first parse and a failing re-parse of the
assembled string each yield `InvalidUri`. -/
theorem authorization_uri_invalid_uri_witness :
    authorization_uri (fun _ => none) (fun _ => true)
        ⟨"cid", "sec", none, ⟨"not a uri", "t"⟩⟩ "st" [] =
      .error (.InvalidUri "not a uri") ∧
    authorization_uri (fun _ => some ⟨"https://p.example/auth", none, none⟩)
        (fun _ => false) ⟨"cid", "sec", none, ⟨"https://p.example/auth", "t"⟩⟩
        "st" [] =
      .error (.InvalidUri
        "https://p.example/auth?response_type=code&client_id=cid&state=st") := by
  have h1 := (authorization_uri_invalid_uri (fun _ => none) (fun _ => true)
    ⟨"cid", "sec", none, ⟨"not a uri", "t"⟩⟩ "st" []).1 rfl
  have h2 := (authorization_uri_invalid_uri
    (fun _ => some ⟨"https://p.example/auth", none, none⟩) (fun _ => false)
    ⟨"cid", "sec", none, ⟨"https://p.example/auth", "t"⟩⟩ "st" []).2
    ⟨"https://p.example/auth", none, none⟩ rfl rfl
  exact ⟨h1, by rw [h2]; rfl⟩

/-- Claim C3: `exchange_code` issues a POST to the provider's token endpoint
with `Accept: application/json` and the form content type; the form body
serializes, for `AuthorizationCode`, `grant_type=authorization_code`, the
code, and `redirect_uri` iff configured; for `RefreshToken`,
`grant_type=refresh_token` and the token, with no `code` or `redirect_uri`
field; each grant's pairs are followed by `client_id` and `client_secret`. -/
theorem exchange_request_form_body (config : OAuthConfig)
    (token : TokenRequest) :
    (exchangeRequest config token).method = "POST" ∧
    (exchangeRequest config token).uri = config.provider.token_uri ∧
    ("accept", "application/json") ∈ (exchangeRequest config token).headers ∧
    ("content-type", "application/x-www-form-urlencoded") ∈
        (exchangeRequest config token).headers ∧
    (exchangeRequest config token).body =
        serializePairs (tokenRequestParams config token) ∧
    (∀ code, token = .AuthorizationCode code →
      ("grant_type", "authorization_code") ∈ tokenRequestParams config token ∧
      ("code", code) ∈ tokenRequestParams config token ∧
      ((∃ r, ("redirect_uri", r) ∈ tokenRequestParams config token) ↔
        config.redirect_uri ≠ none)) ∧
    (∀ tok, token = .RefreshToken tok →
      ("grant_type", "refresh_token") ∈ tokenRequestParams config token ∧
      ("refresh_token", tok) ∈ tokenRequestParams config token ∧
      (∀ v, ("code", v) ∉ tokenRequestParams config token) ∧
      (∀ v, ("redirect_uri", v) ∉ tokenRequestParams config token)) ∧
    (∃ pre, tokenRequestParams config token =
      pre ++ [("client_id", config.client_id),
        ("client_secret", config.client_secret)]) := by
  refine ⟨rfl, rfl, by simp [exchangeRequest], by simp [exchangeRequest], rfl,
    ?_, ?_, ⟨_, rfl⟩⟩
  · rintro code rfl
    refine ⟨by simp [tokenRequestParams], by simp [tokenRequestParams], ?_⟩
    cases hred : config.redirect_uri <;> simp [tokenRequestParams, hred]
  · rintro tok rfl
    exact ⟨by simp [tokenRequestParams], by simp [tokenRequestParams],
      fun v => by simp [tokenRequestParams], fun v => by simp [tokenRequestParams]⟩

/-- Witness for C3 at a concrete configuration and authorization code. -/
theorem exchange_request_form_body_witness :
    (exchangeRequest ⟨"cid", "sec", some "https://app.example/cb", ⟨"a", "t"⟩⟩
        (.AuthorizationCode "thecode")).body =
      "grant_type=authorization_code&code=thecode&redirect_uri=https%3A%2F%2Fapp.example%2Fcb&client_id=cid&client_secret=sec" ∧
    ("code", "thecode") ∈ tokenRequestParams
      ⟨"cid", "sec", some "https://app.example/cb", ⟨"a", "t"⟩⟩
      (.AuthorizationCode "thecode") := by
  have h := exchange_request_form_body
    ⟨"cid", "sec", some "https://app.example/cb", ⟨"a", "t"⟩⟩
    (.AuthorizationCode "thecode")
  exact ⟨by rw [h.2.2.2.2.1]; rfl, (h.2.2.2.2.2.1 "thecode" rfl).2.1⟩

/-- Claim C4: a token-endpoint response with a non-2xx status yields
`ExchangeError` carrying that status; a transport failure — including a
failure while reading the response body — yields `ExchangeFailure`. -/
theorem exchange_code_error_status (config : OAuthConfig)
    (token : TokenRequest) (transport : HttpRequest → HttpOutcome)
    (status : Nat) (body : BodyOutcome)
    (hresp : transport (exchangeRequest config token) = .response status body)
    (hst : is_success status = false) :
    exchange_code config token transport = .error (.ExchangeError status) ∧
    (∀ t2 : HttpRequest → HttpOutcome,
      t2 (exchangeRequest config token) = .transportFailure →
      exchange_code config token t2 = .error .ExchangeFailure) ∧
    (∀ (t3 : HttpRequest → HttpOutcome) (s3 : Nat),
      t3 (exchangeRequest config token) = .response s3 .readFailure →
      is_success s3 = true →
      exchange_code config token t3 = .error .ExchangeFailure) := by
  refine ⟨?_, ?_, ?_⟩
  · simp [exchange_code, hresp, processExchangeResponse, hst]
  · intro t2 h2
    simp [exchange_code, h2, processExchangeResponse]
  · intro t3 s3 h3 hs3
    simp [exchange_code, h3, processExchangeResponse, hs3]

/-- Witness for C4: HTTP status 401 yields `ExchangeError 401`. -/
theorem exchange_code_error_status_witness :
    exchange_code ⟨"cid", "sec", none, ⟨"a", "t"⟩⟩ (.RefreshToken "rt")
        (fun _ => .response 401 .readFailure) =
      .error (.ExchangeError 401) :=
  (exchange_code_error_status ⟨"cid", "sec", none, ⟨"a", "t"⟩⟩
    (.RefreshToken "rt") (fun _ => .response 401 .readFailure)
    401 .readFailure rfl rfl).1

/-- Claim C5: a 2xx response whose body parses as a JSON object carrying the
string fields `access_token` and `token_type` yields a `TokenResponse` whose
`access_token` is the body's `access_token`; a 2xx body that does not parse,
or whose object lacks `access_token`, yields `ExchangeFailure`. -/
theorem exchange_code_success_parse (config : OAuthConfig)
    (token : TokenRequest) (transport : HttpRequest → HttpOutcome)
    (status : Nat) (fields : List (String × Json)) (a t : String)
    (hresp : transport (exchangeRequest config token) =
      .response status (.bytes (some (.obj fields))))
    (hst : is_success status = true)
    (ha : jsonLookup fields "access_token" = some (.str a))
    (ht : jsonLookup fields "token_type" = some (.str t)) :
    (∃ tr, exchange_code config token transport = .ok tr ∧
      tr.access_token = a) ∧
    (∀ (t2 : HttpRequest → HttpOutcome) (s2 : Nat),
      t2 (exchangeRequest config token) = .response s2 (.bytes none) →
      is_success s2 = true →
      exchange_code config token t2 = .error .ExchangeFailure) ∧
    (∀ (t3 : HttpRequest → HttpOutcome) (s3 : Nat)
        (gs : List (String × Json)),
      t3 (exchangeRequest config token) = .response s3 (.bytes (some (.obj gs))) →
      is_success s3 = true → jsonLookup gs "access_token" = none →
      exchange_code config token t3 = .error .ExchangeFailure) := by
  refine ⟨?_, ?_, ?_⟩
  · simp [exchange_code, hresp, processExchangeResponse, hst,
      tokenResponseTryFrom, ha, ht, asStr]
  · intro t2 s2 h2 hs2
    simp [exchange_code, h2, processExchangeResponse, hs2]
  · intro t3 s3 gs h3 hs3 hgs
    simp [exchange_code, h3, processExchangeResponse, hs3,
      tokenResponseTryFrom, hgs, asStr]

/-- Witness for C5: status 200 with body object
`access_token = "abc", token_type = "bearer"` yields `access_token = "abc"`. -/
theorem exchange_code_success_parse_witness :
    ∃ tr, exchange_code ⟨"cid", "sec", none, ⟨"a", "t"⟩⟩
        (.AuthorizationCode "c")
        (fun _ => .response 200 (.bytes (some (.obj
          [("access_token", .str "abc"), ("token_type", .str "bearer")])))) =
      .ok tr ∧ tr.access_token = "abc" :=
  (exchange_code_success_parse ⟨"cid", "sec", none, ⟨"a", "t"⟩⟩
    (.AuthorizationCode "c")
    (fun _ => .response 200 (.bytes (some (.obj
      [("access_token", .str "abc"), ("token_type", .str "bearer")]))))
    200 [("access_token", .str "abc"), ("token_type", .str "bearer")]
    "abc" "bearer" rfl rfl rfl rfl).1

/-- Claim C10: for a non-2xx status the outcome is `ExchangeError status`
whatever the body holds — the body is never read, so even an unparsable body
yields `ExchangeError`, not `ExchangeFailure`. -/
theorem exchange_error_ignores_body (status : Nat) (b1 b2 : BodyOutcome)
    (hst : is_success status = false) :
    processExchangeResponse (.response status b1) =
        .error (.ExchangeError status) ∧
    processExchangeResponse (.response status b1) =
      processExchangeResponse (.response status b2) := by
  constructor
  · simp [processExchangeResponse, hst]
  · simp [processExchangeResponse, hst]

/-- Witness for C10: status 401 with an unparsable body still yields
`ExchangeError 401`, and the result equals the one for any other body. -/
theorem exchange_error_ignores_body_witness :
    processExchangeResponse (.response 401 (.bytes none)) =
        .error (.ExchangeError 401) ∧
    processExchangeResponse (.response 401 (.bytes none)) =
      processExchangeResponse (.response 401 .readFailure) :=
  exchange_error_ignores_body 401 (.bytes none) .readFailure rfl

/-- Claim C8: `HyperRustlsAdapter` holds no mutable state — an
`authorization_uri` call leaves the adapter value and the configuration
unchanged, its result does not depend on which adapter value performs it,
and interposing an unrelated call (arbitrary other inputs) does not change
the result of a later call on the same inputs. -/
theorem adapter_stateless (a b : HyperRustlsAdapter)
    (urlParse : String → Option Url) (absParse : String → Bool)
    (config : OAuthConfig) (state : String) (scopes : List String)
    (urlParse2 : String → Option Url) (absParse2 : String → Bool)
    (config2 : OAuthConfig) (state2 : String) (scopes2 : List String) :
    (authorizationUriCall a urlParse absParse config state scopes).1 = a ∧
    (authorizationUriCall a urlParse absParse config state scopes).2.1 =
        config ∧
    (authorizationUriCall a urlParse absParse config state scopes).2.2 =
      (authorizationUriCall b urlParse absParse config state scopes).2.2 ∧
    (authorizationUriCall
        ((authorizationUriCall a urlParse2 absParse2 config2 state2 scopes2).1)
        urlParse absParse config state scopes).2.2 =
      (authorizationUriCall a urlParse absParse config state scopes).2.2 :=
  ⟨rfl, rfl, rfl, rfl⟩

/-- Claim C2 (modelled from the spec, the flow engine is not among the
provided sources): callback-state validation always clears the stored state,
succeeds exactly on exact equality, rejects any other received value with
`StateMismatch`, and therefore a replay of any callback after a validation
attempt always fails — no state value is accepted twice. -/
theorem csrf_state_single_use (pending : Option String) (received : String) :
    (validateCallbackState pending received).1 = none ∧
    ((validateCallbackState pending received).2 = .ok () ↔
      pending = some received) ∧
    (pending ≠ some received →
      (validateCallbackState pending received).2 = .error .StateMismatch) ∧
    (∀ received2,
      (validateCallbackState
        (validateCallbackState pending received).1 received2).2 =
          .error .StateMismatch) := by
  refine ⟨rfl, ?_, ?_, ?_⟩
  · by_cases h : pending = some received <;> simp [validateCallbackState, h]
  · intro h
    simp [validateCallbackState, h]
  · intro received2
    simp [validateCallbackState]

/-- Witness for C2: a mismatched state is rejected, and replaying the very
state that just validated successfully is rejected the second time. -/
theorem csrf_state_single_use_witness :
    (validateCallbackState (some "s1") "s2").2 = .error .StateMismatch ∧
    (validateCallbackState (some "s1") "s1").2 = .ok () ∧
    (validateCallbackState
        (validateCallbackState (some "s1") "s1").1 "s1").2 =
      .error .StateMismatch := by
  have h1 := csrf_state_single_use (some "s1") "s2"
  have h2 := csrf_state_single_use (some "s1") "s1"
  exact ⟨h1.2.2.1 (by decide), h2.2.1.mpr rfl, h2.2.2.2 "s1"⟩

/-- Claim C6 (modelled from the spec, the flow engine is not among the
provided sources): a callback carrying an `error` parameter is answered with
`ProviderDenied`, and the outcome is the same whatever the adapter's
exchange function would return — the token endpoint is never contacted. -/
theorem callback_error_no_exchange
    (exchange1 exchange2 : String → Except ErrorKind TokenResponse)
    (pending : Option String) (p : CallbackParams) (e : String)
    (herr : p.error = some e) :
    handleCallback exchange1 pending p = (none, .error .ProviderDenied) ∧
    handleCallback exchange1 pending p = handleCallback exchange2 pending p := by
  constructor
  · simp [handleCallback, herr]
  · simp [handleCallback, herr]

/-- Witness for C6: `error=access_denied` with no `code` yields
`ProviderDenied`. -/
theorem callback_error_no_exchange_witness :
    handleCallback (fun _ => .error .ExchangeFailure) (some "s")
        ⟨none, none, some "access_denied"⟩ =
      (none, .error .ProviderDenied) :=
  (callback_error_no_exchange (fun _ => .error .ExchangeFailure)
    (fun _ => .error .ExchangeFailure) (some "s")
    ⟨none, none, some "access_denied"⟩ "access_denied" rfl).1

end RocketOAuth2
